import Mathlib

/-!
Shallow embedding of the VizLab signal pipeline:
the backend registry builder and signal resolver (src/backend/app.py) and the
derived-ratio construction of the frontend (src/frontend/pages/3_Derived_Ratios.py).
Numeric cell values are modelled by `FVal`: a rational number together with the
IEEE-754 special values (positive/negative infinity and NaN, without signed zero),
which is what the numpy/pandas float columns contribute to the logic under claim
(comparisons against zero, division by zero, non-finite filtering).  Python dicts
are modelled as association lists in insertion order; Python exceptions as the
`Except Err` monad.
-/

/-- Floating-point style value: a finite rational, an infinity, or NaN. -/
inductive FVal where
  | num (q : ℚ)
  | inf
  | ninf
  | nan
deriving DecidableEq, Repr

/-- Numpy comparison `v > 0`: NaN compares false, +inf compares true. -/
def FVal.gtZero : FVal → Bool
  | .num q => decide (0 < q)
  | .inf => true
  | .ninf => false
  | .nan => false

/-- Numpy `isfinite`. -/
def FVal.isFinite : FVal → Bool
  | .num _ => true
  | _ => false

/-- Whether the value is an infinity (of either sign). -/
def FVal.isInf : FVal → Bool
  | .inf => true
  | .ninf => true
  | _ => false

/-- IEEE-754 style division on `FVal` (numpy `np.divide` on float64 entries):
x/0 with x>0 gives +inf, x/0 with x<0 gives -inf, 0/0 gives NaN, NaN propagates.
Finite/finite division with a nonzero divisor is exact rational division (the
model has no overflow: an overflowing float division is another source of a
non-finite value, which the claims treat uniformly with the infinities). -/
def FVal.div : FVal → FVal → FVal
  | .nan, _ => .nan
  | .num a, .num b =>
    if b = 0 then (if a = 0 then .nan else if 0 < a then .inf else .ninf)
    else .num (a / b)
  | .num _, .inf => .num 0
  | .num _, .ninf => .num 0
  | .inf, .num b => if 0 ≤ b then .inf else .ninf
  | .ninf, .num b => if 0 ≤ b then .ninf else .inf
  | .inf, .inf => .nan
  | .inf, .ninf => .nan
  | .ninf, .inf => .nan
  | .ninf, .ninf => .nan
  | _, .nan => .nan

/-- Python exceptions of the backend, as FastAPI sees them: `http s m` is
`HTTPException(s, m)`; `runtime`, `value` and `key` are uncaught `RuntimeError`,
`ValueError` and `KeyError`, which FastAPI surfaces as 500-class internal errors. -/
inductive Err where
  | http (status : Nat) (msg : String)
  | runtime (msg : String)
  | value (msg : String)
  | key (msg : String)
deriving DecidableEq, Repr

/-- HTTP status class of an error at the API boundary: an `HTTPException` keeps
its status, any other uncaught exception becomes a 500 internal server error. -/
def Err.status : Err → Nat
  | .http s _ => s
  | .runtime _ => 500
  | .value _ => 500
  | .key _ => 500

/-- A pandas DataFrame as loaded by `pd.read_csv`: named columns of values, all
of length `nrows` (`DataFrame.WF` states that well-formedness). -/
structure DataFrame where
  nrows : Nat
  cols : List (String × List FVal)
deriving DecidableEq, Repr

/-- The column names, in order (`df.columns`). -/
def DataFrame.columns (df : DataFrame) : List String := df.cols.map Prod.fst

/-- Well-formedness of a loaded table: every column has exactly `nrows` entries
(pandas guarantees rectangularity for a parsed CSV). -/
def DataFrame.WF (df : DataFrame) : Prop := ∀ c ∈ df.cols, c.2.length = df.nrows

/-- Column selection `df[c]`: the first column named `c`, or a `KeyError`. -/
def DataFrame.getCol (df : DataFrame) (c : String) : Except Err (List FVal) :=
  match df.cols.find? (fun kv => kv.1 == c) with
  | some kv => .ok kv.2
  | none => .error (.key c)

/-- The cell at column `c`, row `i`; out-of-table reads default to 0 (they are
unreachable in the uses below, which only read columns of the table at rows
below `nrows`). -/
def DataFrame.cell (df : DataFrame) (c : String) (i : Nat) : FVal :=
  (((df.cols.find? (fun kv => kv.1 == c)).map Prod.snd).getD []).getD i (.num 0)

/-- One batch of a device config: `{"probe_prefix": …, "probes": […], "metrics": […]}`. -/
structure Batch where
  probe_prefix : String
  probes : List String
  metrics : List String
deriving DecidableEq, Repr

/-- A parsed `device_config.json`: the optional `["device"]["name"]` entry
(`device_cfg.get("device", {}).get("name")`) and the `"batches"` dict in
insertion order. -/
structure DeviceCfg where
  device_name : Option String
  batches : List (String × Batch)
deriving DecidableEq, Repr

/-- Python substring test `p in c`. -/
def pyIn (p c : String) : Bool := decide (p.toList <:+: c.toList)

/-- Python `c.startswith(p)`. -/
def pyStartsWith (c p : String) : Bool := p.toList.isPrefixOf c.toList

/-- Python-style suffix test, used for the `*.csv` glob. -/
def pyEndsWith (c p : String) : Bool := p.toList.isSuffixOf c.toList

/-- Embeds `find_metric_batch` (src/backend/app.py:141-145): the first batch, in
declared order, whose metric list contains the metric; else a `ValueError`. -/
def find_metric_batch (device_cfg : DeviceCfg) (metric_name : String) : Except Err String :=
  match device_cfg.batches.find? (fun bn => bn.2.metrics.contains metric_name) with
  | some bn => .ok bn.1
  | none => .error (.value ("Metric not defined in device config: " ++ metric_name))

/-- Embeds `select_probe_columns` (src/backend/app.py:147-158): the table columns
whose name starts with the metric's batch's probe prefix and contains at least
one of that batch's probe substrings. -/
def select_probe_columns (df : DataFrame) (device_cfg : DeviceCfg) (metric_name : String) :
    Except Err (List String) :=
  match find_metric_batch device_cfg metric_name with
  | .error e => .error e
  | .ok batch_name =>
    match device_cfg.batches.lookup batch_name with
    | none => .error (.key batch_name)
    | some batch =>
      .ok (df.columns.filter (fun c =>
        pyStartsWith c batch.probe_prefix && batch.probes.any (fun p => pyIn p c)))

/-- Embeds `derive_labels` (src/backend/app.py:160-166): with no probe columns,
`np.zeros(len(df))`; otherwise `(df[probe_cols] > 0).any(axis=1).astype(int)`. -/
def derive_labels (df : DataFrame) (device_cfg : DeviceCfg) (metric_name : String) :
    Except Err (List Int) :=
  match select_probe_columns df device_cfg metric_name with
  | .error e => .error e
  | .ok probe_cols =>
    if probe_cols.isEmpty then
      .ok (List.replicate df.nrows 0)
    else
      .ok ((List.range df.nrows).map (fun i =>
        if probe_cols.any (fun c => (df.cell c i).gtZero) then 1 else 0))

/-- The `source` block of a Signal. -/
structure SignalSource where
  device : String
  workload : String
  run : String
deriving DecidableEq, Repr

/-- The `metric` block of a Signal. -/
structure SignalMetric where
  name : String
  unit : String
deriving DecidableEq, Repr

/-- The `time` block of a Signal; the values are the raw `index` column of the
table (integers in practice, kept as raw cell values here). -/
structure SignalTime where
  type : String
  values : List FVal
deriving DecidableEq, Repr

/-- The `labels` block of a Signal. -/
structure SignalLabels where
  type : String
  values : List Int
  batch : String
deriving DecidableEq, Repr

/-- The `transform` block of a Signal. -/
structure SignalTransform where
  window_size : Int
  aggregation : String
deriving DecidableEq, Repr

/-- The canonical resolved Signal record (the `Signal` pydantic model). -/
structure Signal where
  signal_id : String
  source : SignalSource
  metric : SignalMetric
  time : SignalTime
  values : List FVal
  labels : SignalLabels
  transform : SignalTransform
deriving DecidableEq, Repr

/-- The safety-invariant guard of `make_signal` (src/backend/app.py:177-182),
with Python truthiness: `if cfg_device and cfg_device != device` fires only
when the config's device name is present, non-empty and different from the
requested device. -/
def config_mismatch (device_cfg : DeviceCfg) (device : String) : Bool :=
  match device_cfg.device_name with
  | some cfg_device => !cfg_device.isEmpty && cfg_device != device
  | none => false

/-- Embeds `make_signal` (src/backend/app.py:168-211).  The mismatch guard runs
first, then the labels are derived, then the record is assembled; column reads
`df["index"]` and `df[metric]` and the second `find_metric_batch` call fail in
the source's evaluation order. -/
def make_signal (df : DataFrame) (device_cfg : DeviceCfg)
    (device workload run metric : String) (window_size : Int) : Except Err Signal :=
  if config_mismatch device_cfg device then
    .error (.runtime ("Device config mismatch: cfg=" ++ device_cfg.device_name.getD ""
      ++ ", request=" ++ device))
  else
    match derive_labels df device_cfg metric with
    | .error e => .error e
    | .ok labels =>
      match df.getCol "index", df.getCol metric, find_metric_batch device_cfg metric with
      | .ok time_vals, .ok metric_vals, .ok batch_name =>
        .ok { signal_id := device ++ "::" ++ workload ++ "::" ++ run ++ "::" ++ metric,
              source := { device := device, workload := workload, run := run },
              metric := { name := metric, unit := "events" },
              time := { type := "index", values := time_vals },
              values := metric_vals,
              labels := { type := "attack", values := labels, batch := batch_name },
              transform := { window_size := window_size, aggregation := "none" } }
      | .error e, _, _ => .error e
      | _, .error e, _ => .error e
      | _, _, .error e => .error e

/-- One entry of `DEVICE_REGISTRY`: device path, parsed config, derived sorted
metric list, and the workload → sorted runs mapping. -/
structure RegEntry where
  path : String
  config : DeviceCfg
  metrics : List String
  workloads : List (String × List String)
deriving DecidableEq, Repr

/-- The in-memory registry: device name → entry, in insertion order. -/
abbrev Registry : Type := List (String × RegEntry)

/-- Embeds `get_signal` (src/backend/app.py:213-249).  `fs` is the filesystem
boundary: `pd.read_csv` on a path string.  Validation order: device, workload,
run, metric; then the CSV is loaded once and `make_signal` runs. -/
def get_signal (reg : Registry) (fs : String → Except Err DataFrame)
    (device workload run metric : String) (window_size : Int) : Except Err Signal :=
  match List.lookup device reg with
  | none => .error (.http 404 ("Device not found: " ++ device))
  | some entry =>
    match List.lookup workload entry.workloads with
    | none => .error (.http 404 ("Workload not found: " ++ workload))
    | some runs =>
      if !runs.contains run then
        .error (.http 404 ("Run not found: " ++ run))
      else if !entry.metrics.contains metric then
        .error (.http 400 ("Metric not valid for device: " ++ metric))
      else
        match fs (entry.path ++ "/" ++ workload ++ "/" ++ run ++ ".csv") with
        | .error e => .error e
        | .ok df => make_signal df entry.config device workload run metric window_size

/-- A single element of a `POST /signals` payload. -/
structure SignalRequest where
  device : String
  workload : String
  run : String
  metric : String
  window_size : Int
deriving DecidableEq, Repr

/-- Embeds `get_signals` (src/backend/app.py:252-289): the requests are handled
in list order and the results accumulated; the source inlines, per request, the
exact validation/load/make_signal sequence of `get_signal`, so each step is the
single-request resolution and the first exception aborts the whole batch. -/
def get_signals (reg : Registry) (fs : String → Except Err DataFrame) :
    List SignalRequest → Except Err (List Signal)
  | [] => .ok []
  | req :: rest =>
    match get_signal reg fs req.device req.workload req.run req.metric req.window_size with
    | .error e => .error e
    | .ok s =>
      match get_signals reg fs rest with
      | .error e => .error e
      | .ok others => .ok (s :: others)

/-- The data root constant (`DATA_ROOT = Path("../Master_Data_Sets")`). -/
def DATA_ROOT : String := "../Master_Data_Sets"

/-- A workload directory as the registry builder sees it: its name and the
names of the files directly inside it. -/
structure WorkloadDir where
  name : String
  files : List String
deriving DecidableEq, Repr

/-- A device directory: its name, its parsed `device_config.json` when that
file exists (`none` models a directory without one), and its immediate
subdirectories.  Non-directory children other than the config artifact are
filtered out by `is_dir()` in the source and are not modelled. -/
structure DeviceDir where
  name : String
  config : Option DeviceCfg
  workloads : List WorkloadDir
deriving DecidableEq, Repr

/-- Python `sorted` on strings. -/
def sorted_strings (l : List String) : List String := l.mergeSort (fun a b => a ≤ b)

/-- Python `sorted(set(l))` on strings. -/
def py_sorted_set (l : List String) : List String := sorted_strings l.dedup

/-- `Path(f).stem` for a name matched by `glob("*.csv")`: the name minus the
`.csv` suffix, except that pathlib treats the bare name `.csv` as a hidden file
with no suffix, whose stem is itself. -/
def csv_stem (f : String) : String :=
  if f = ".csv" then f else (f.toList.take (f.toList.length - 4)).asString

/-- The runs of one workload directory (src/backend/app.py:45-53): stems of the
`*.csv` files except the master log, sorted. -/
def workload_runs (w : WorkloadDir) : List String :=
  sorted_strings (w.files.filterMap (fun f =>
    if pyEndsWith f ".csv" && f != "experiments_master_log.csv" then some (csv_stem f)
    else none))

/-- The registry entry built for one device directory with config `cfg`
(src/backend/app.py:34-60): metrics are the sorted deduplicated union of all
batch metric lists, in batch insertion order before sorting; workload
directories named `__pycache__` are skipped. -/
def device_entry (d : DeviceDir) (cfg : DeviceCfg) : RegEntry :=
  { path := DATA_ROOT ++ "/" ++ d.name,
    config := cfg,
    metrics := py_sorted_set (cfg.batches.flatMap (fun b => b.2.metrics)),
    workloads := d.workloads.filterMap (fun w =>
      if w.name == "__pycache__" then none else some (w.name, workload_runs w)) }

/-- Embeds `load_registry` (src/backend/app.py:17-62): every device directory
that has a config artifact contributes an entry; one without is skipped
silently.  `POST /reload` (src/backend/app.py:291-297) clears the registry and
runs exactly this builder again. -/
def load_registry (root : List DeviceDir) : Registry :=
  root.filterMap (fun d =>
    match d.config with
    | none => none
    | some cfg => some (d.name, device_entry d cfg))

/-- A cached ratio record of the frontend page
(src/frontend/pages/3_Derived_Ratios.py:116-130). -/
structure CachedRatio where
  name : String
  display_name : String
  x : List FVal
  y : List FVal
  labels : List Int
  device : String
  workload : String
  run : String
  numerator : String
  denominator : String
deriving DecidableEq, Repr

/-- The ratio entry returned to the page (the cached fields plus the entry id). -/
structure RatioEntry where
  entry_id : Int
  name : String
  display_name : String
  x : List FVal
  y : List FVal
  labels : List Int
  device : String
  workload : String
  run : String
  numerator : String
  denominator : String
deriving DecidableEq, Repr

/-- The session ratio cache, keyed by (device, workload, run, numerator,
denominator). -/
abbrev RatioCache : Type :=
  List ((String × String × String × String × String) × CachedRatio)

/-- Numpy `np.divide` on two 1-d float arrays: element-wise `FVal.div` when the
shapes agree, a broadcast `ValueError` otherwise (size-1 broadcasting does not
arise for the signal series under study and is not modelled). -/
def np_divide (a b : List FVal) : Except String (List FVal) :=
  if a.length = b.length then .ok (List.zipWith FVal.div a b)
  else .error "operands could not be broadcast together"

/-- The replacement step `np.where(np.isfinite(r), r, np.nan)`
(src/frontend/pages/3_Derived_Ratios.py:106-110). -/
def np_where_finite (rs : List FVal) : List FVal :=
  rs.map (fun v => if v.isFinite then v else .nan)

/-- Numpy `np.logical_or(a, b).astype(int)` on two integer label arrays:
position-wise 1 when either entry is nonzero, with the same broadcast failure
on shape mismatch. -/
def np_logical_or_int (a b : List Int) : Except String (List Int) :=
  if a.length = b.length then
    .ok (List.zipWith (fun x y => if x ≠ 0 ∨ y ≠ 0 then (1 : Int) else 0) a b)
  else .error "operands could not be broadcast together"

/-- The `display_name` string built by the page. -/
def ratio_display_name (device_sel workload_sel run_sel numerator_m denominator_m : String) :
    String :=
  device_sel ++ " | " ++ workload_sel ++ " | " ++ run_sel ++ " | "
    ++ numerator_m ++ " / " ++ denominator_m

/-- Embeds `build_ratio_data` (src/frontend/pages/3_Derived_Ratios.py:56-152).
`fetch_sig` is `fetch_signal` (the `GET /signal` boundary, window_size 1).  An
`st.error(msg)` followed by `return None` is modelled as `Except.error msg`;
the result comes with the ratio cache after the call.  The missing-selection
guard models a `None` selection as the empty string (both are falsy).  On a
cache hit the cached record is returned verbatim (only `entry_id` and
`display_name` are rebuilt, exactly as in the source); any exception from the
fetches or the numpy calls is caught by the page and reported as an error. -/
def build_ratio_data (fetch_sig : String → String → String → String → Except Err Signal)
    (cache : RatioCache) (entry_id : Int)
    (device_sel workload_sel run_sel numerator_m denominator_m : String) :
    Except String RatioEntry × RatioCache :=
  if device_sel = "" ∨ workload_sel = "" ∨ run_sel = "" then
    (.error "Device, workload, and run are required for each ratio", cache)
  else if numerator_m = denominator_m then
    (.error "Numerator and denominator must be different metrics", cache)
  else
    let cache_key := (device_sel, workload_sel, run_sel, numerator_m, denominator_m)
    match List.lookup cache_key cache with
    | some cached =>
      (.ok { entry_id := entry_id,
             name := cached.name,
             display_name := ratio_display_name device_sel workload_sel run_sel
               numerator_m denominator_m,
             x := cached.x, y := cached.y, labels := cached.labels,
             device := device_sel, workload := workload_sel, run := run_sel,
             numerator := numerator_m, denominator := denominator_m }, cache)
    | none =>
      match fetch_sig device_sel workload_sel run_sel numerator_m with
      | .error _ => (.error "API error", cache)
      | .ok numerator_signal =>
        match fetch_sig device_sel workload_sel run_sel denominator_m with
        | .error _ => (.error "API error", cache)
        | .ok denominator_signal =>
          match np_divide numerator_signal.values denominator_signal.values with
          | .error e => (.error ("Error: " ++ e), cache)
          | .ok raw_ratio =>
            let ratio_values := np_where_finite raw_ratio
            match np_logical_or_int numerator_signal.labels.values
                denominator_signal.labels.values with
            | .error e => (.error ("Error: " ++ e), cache)
            | .ok combined_labels =>
              let cached_ratio : CachedRatio :=
                { name := numerator_m ++ " / " ++ denominator_m,
                  display_name := ratio_display_name device_sel workload_sel run_sel
                    numerator_m denominator_m,
                  x := numerator_signal.time.values,
                  y := ratio_values,
                  labels := combined_labels,
                  device := device_sel, workload := workload_sel, run := run_sel,
                  numerator := numerator_m, denominator := denominator_m }
              (.ok { entry_id := entry_id,
                     name := cached_ratio.name,
                     display_name := ratio_display_name device_sel workload_sel run_sel
                       numerator_m denominator_m,
                     x := cached_ratio.x, y := cached_ratio.y,
                     labels := cached_ratio.labels,
                     device := device_sel, workload := workload_sel, run := run_sel,
                     numerator := numerator_m, denominator := denominator_m },
               cache ++ [(cache_key, cached_ratio)])

/-! Concrete fixtures, mirroring the end-to-end scenario of the spec: device
`D1` with batch `b1` (metrics cycles and instructions, probe prefix `pmc_`,
probes `core0`), one workload `W1` with run `R1`. -/

/-- The batch `b1` of the scenario. -/
def batch_b1 : Batch :=
  { probe_prefix := "pmc_", probes := ["core0"], metrics := ["cycles", "instructions"] }

/-- The device config of `D1`. -/
def cfg_D1 : DeviceCfg := { device_name := some "D1", batches := [("b1", batch_b1)] }

/-- The table of run `R1`: row 0 has pmc_core0=5, cycles=100, instructions=50;
row 1 has pmc_core0=0, cycles=200, instructions=80. -/
def df_R1 : DataFrame :=
  { nrows := 2,
    cols := [("index", [.num 0, .num 1]),
             ("pmc_core0", [.num 5, .num 0]),
             ("cycles", [.num 100, .num 200]),
             ("instructions", [.num 50, .num 80])] }

/-- The registry holding exactly `D1`. -/
def reg_demo : Registry :=
  [("D1", { path := DATA_ROOT ++ "/D1", config := cfg_D1,
            metrics := ["cycles", "instructions"],
            workloads := [("W1", ["R1"])] })]

/-- The filesystem boundary serving `df_R1` at the path `get_signal` builds. -/
def fs_demo : String → Except Err DataFrame := fun p =>
  if p = DATA_ROOT ++ "/D1/W1/R1.csv" then .ok df_R1 else .error (.key p)

example : pyIn "core0" "pmc_core0_x" = true := by decide
example : pyIn "core1" "pmc_core0_x" = false := by decide

/-- The demo table is rectangular. -/
theorem df_R1_wf : df_R1.WF := by
  unfold DataFrame.WF df_R1
  decide

/-! Helper lemmas about the resolver. -/

/-- A successful `derive_labels` has one label per table row. -/
theorem derive_labels_length {df : DataFrame} {cfg : DeviceCfg} {m : String} {ls : List Int}
    (h : derive_labels df cfg m = .ok ls) : ls.length = df.nrows := by
  unfold derive_labels at h
  split at h
  · exact absurd h (by simp)
  · split at h <;> simp only [Except.ok.injEq] at h <;> subst h <;> simp

/-- Every derived label is 0 or 1. -/
theorem derive_labels_mem {df : DataFrame} {cfg : DeviceCfg} {m : String} {ls : List Int}
    (h : derive_labels df cfg m = .ok ls) : ∀ x ∈ ls, x = 0 ∨ x = 1 := by
  unfold derive_labels at h
  split at h
  · exact absurd h (by simp)
  · split at h <;> simp only [Except.ok.injEq] at h <;> subst h
    · intro x hx
      simp only [List.eq_of_mem_replicate hx, true_or]
    · intro x hx
      simp only [List.mem_map] at hx
      obtain ⟨i, -, hi⟩ := hx
      split at hi <;> omega

/-- A successfully read column has one entry per table row. -/
theorem getCol_length {df : DataFrame} {c : String} {col : List FVal}
    (hwf : df.WF) (h : df.getCol c = .ok col) : col.length = df.nrows := by
  unfold DataFrame.getCol at h
  split at h
  case _ kv hf =>
    simp only [Except.ok.injEq] at h
    subst h
    exact hwf kv (List.mem_of_find?_eq_some hf)
  case _ => exact absurd h (by simp)

/-- Inversion of a successful `make_signal`: the mismatch guard did not fire and
every field of the returned record is the one assembled from the table. -/
theorem make_signal_ok {df : DataFrame} {cfg : DeviceCfg} {d w r m : String} {ws : Int}
    {s : Signal} (h : make_signal df cfg d w r m ws = .ok s) :
    derive_labels df cfg m = .ok s.labels.values ∧
    df.getCol "index" = .ok s.time.values ∧
    df.getCol m = .ok s.values ∧
    s.transform = { window_size := ws, aggregation := "none" } ∧
    s.labels.type = "attack" ∧ s.time.type = "index" := by
  unfold make_signal at h
  split at h
  · exact absurd h (by simp)
  · split at h
    · exact absurd h (by simp)
    · rename_i labels hlab
      split at h
      · rename_i tv mv bn htv hmv hbn
        simp only [Except.ok.injEq] at h
        subst h
        exact ⟨hlab, htv, hmv, rfl, rfl, rfl⟩
      all_goals exact absurd h (by simp)

/-- `make_signal` threads `window_size` into the transform block and nowhere
else: resolving with `w2` equals resolving with `w1` and then overwriting the
transform. -/
theorem make_signal_window_size (df : DataFrame) (cfg : DeviceCfg) (d w r m : String)
    (w1 w2 : Int) :
    make_signal df cfg d w r m w2 =
      (make_signal df cfg d w r m w1).map
        (fun s => { s with transform := { window_size := w2, aggregation := "none" } }) := by
  unfold make_signal
  split
  · rfl
  · cases hlab : derive_labels df cfg m
    · rfl
    · cases hti : df.getCol "index" <;> cases hmi : df.getCol m <;>
        cases hbi : find_metric_batch cfg m <;> rfl

/-- Resolving the demo scenario: metric cycles over run R1 yields values
[100, 200] and labels [1, 0], matching the end-to-end scenario of the spec. -/
def demo_signal : Signal :=
  { signal_id := "D1::W1::R1::cycles",
    source := { device := "D1", workload := "W1", run := "R1" },
    metric := { name := "cycles", unit := "events" },
    time := { type := "index", values := [.num 0, .num 1] },
    values := [.num 100, .num 200],
    labels := { type := "attack", values := [1, 0], batch := "b1" },
    transform := { window_size := 1, aggregation := "none" } }

/-- The demo request resolves to `demo_signal`. -/
theorem get_signal_demo :
    get_signal reg_demo fs_demo "D1" "W1" "R1" "cycles" 1 = .ok demo_signal := by
  rfl

/-- A misfiled config: identical to `cfg_D1` but declaring device name `D2`. -/
def cfg_D2mis : DeviceCfg := { cfg_D1 with device_name := some "D2" }

/-- C6: during signal resolution, a device config that declares an explicit
(non-empty) device name different from the requested device makes `make_signal`
fail with the fatal `RuntimeError` — a 500-class internal error at the FastAPI
boundary — and the request is never answered with a Signal. -/
theorem claim_C6_config_mismatch_fatal (df : DataFrame) (cfg : DeviceCfg)
    (dev wl run m : String) (ws : Int) (n : String)
    (hname : cfg.device_name = some n) (hne : n ≠ "") (hdiff : n ≠ dev) :
    make_signal df cfg dev wl run m ws =
      .error (.runtime ("Device config mismatch: cfg=" ++ n ++ ", request=" ++ dev)) ∧
    Err.status (.runtime ("Device config mismatch: cfg=" ++ n ++ ", request=" ++ dev)) = 500 ∧
    ∀ s : Signal, make_signal df cfg dev wl run m ws ≠ .ok s := by
  have hemp : n.isEmpty = false :=
    Bool.eq_false_iff.mpr (fun hb => hne ((String.isEmpty_iff n).mp hb))
  have hm : config_mismatch cfg dev = true := by
    unfold config_mismatch
    rw [hname]
    simp [hemp, hdiff]
  have h1 : make_signal df cfg dev wl run m ws =
      .error (.runtime ("Device config mismatch: cfg=" ++ n ++ ", request=" ++ dev)) := by
    unfold make_signal
    rw [hm, hname]
    simp
  exact ⟨h1, rfl, fun s hs => by rw [h1] at hs; exact absurd hs (by simp)⟩

/-- C6 witness: requesting device D1 against the misfiled `cfg_D2mis` aborts
with the mismatch error. -/
theorem claim_C6_config_mismatch_fatal_witness :
    cfg_D2mis.device_name = some "D2" ∧ ("D2" : String) ≠ "" ∧ ("D2" : String) ≠ "D1" ∧
    make_signal df_R1 cfg_D2mis "D1" "W1" "R1" "cycles" 1 =
      .error (.runtime ("Device config mismatch: cfg=" ++ "D2" ++ ", request=" ++ "D1")) :=
  ⟨rfl, by decide, by decide,
    (claim_C6_config_mismatch_fatal df_R1 cfg_D2mis "D1" "W1" "R1" "cycles" 1 "D2"
      rfl (by decide) (by decide)).1⟩

/-- C9: window_size is a pass-through.  Resolving with `w2` is resolving with
`w1` followed by overwriting `transform.window_size` — every other field of the
Signal (time, values, labels, source, metric, id) and every error are
unchanged — and a resolved Signal always carries aggregation "none" with the
echoed window_size. -/
theorem claim_C9_window_size_passthrough (reg : Registry) (fs : String → Except Err DataFrame)
    (d w r m : String) (w1 w2 : Int) :
    get_signal reg fs d w r m w2 =
      (get_signal reg fs d w r m w1).map
        (fun s => { s with transform := { window_size := w2, aggregation := "none" } }) ∧
    ∀ s : Signal, get_signal reg fs d w r m w1 = .ok s →
      s.transform = { window_size := w1, aggregation := "none" } := by
  constructor
  · unfold get_signal
    split
    · rfl
    · split
      · rfl
      · split
        · rfl
        · split
          · rfl
          · split
            · rfl
            · exact make_signal_window_size _ _ _ _ _ _ w1 w2
  · intro s h
    unfold get_signal at h
    split at h
    · exact absurd h (by simp)
    · split at h
      · exact absurd h (by simp)
      · split at h
        · exact absurd h (by simp)
        · split at h
          · exact absurd h (by simp)
          · split at h
            · exact absurd h (by simp)
            · exact (make_signal_ok h).2.2.2.1

/-- C9 witness: the demo request resolved at window sizes 2 and 1. -/
theorem claim_C9_window_size_passthrough_witness :
    get_signal reg_demo fs_demo "D1" "W1" "R1" "cycles" 2 =
      .ok { demo_signal with transform := { window_size := 2, aggregation := "none" } } ∧
    demo_signal.transform = { window_size := 1, aggregation := "none" } := by
  have h := claim_C9_window_size_passthrough reg_demo fs_demo "D1" "W1" "R1" "cycles" 1 2
  constructor
  · rw [h.1, get_signal_demo]
    rfl
  · exact h.2 demo_signal get_signal_demo

/-- C1: `get_signal` validates device, then workload, then run, then metric, so
the first failing check determines the error: unknown device → 404 "Device not
found"; known device, unknown workload → 404 "Workload not found"; known
workload, unknown run → 404 "Run not found"; known run, metric outside the
device's metric set → 400 "Metric not valid for device". -/
theorem claim_C1_validation_order (reg : Registry) (fs : String → Except Err DataFrame)
    (d w r m : String) (ws : Int) :
    (List.lookup d reg = none →
      get_signal reg fs d w r m ws = .error (.http 404 ("Device not found: " ++ d))) ∧
    (∀ entry : RegEntry, List.lookup d reg = some entry →
      List.lookup w entry.workloads = none →
      get_signal reg fs d w r m ws = .error (.http 404 ("Workload not found: " ++ w))) ∧
    (∀ (entry : RegEntry) (runs : List String), List.lookup d reg = some entry →
      List.lookup w entry.workloads = some runs → runs.contains r = false →
      get_signal reg fs d w r m ws = .error (.http 404 ("Run not found: " ++ r))) ∧
    (∀ (entry : RegEntry) (runs : List String), List.lookup d reg = some entry →
      List.lookup w entry.workloads = some runs → runs.contains r = true →
      entry.metrics.contains m = false →
      get_signal reg fs d w r m ws = .error (.http 400 ("Metric not valid for device: " ++ m))) := by
  refine ⟨?_, ?_, ?_, ?_⟩
  · intro h
    simp [get_signal, h]
  · intro entry h1 h2
    simp [get_signal, h1, h2]
  · intro entry runs h1 h2 h3
    have h3m : r ∉ runs := by simpa using h3
    simp [get_signal, h1, h2, h3m]
  · intro entry runs h1 h2 h3 h4
    have h3m : r ∈ runs := by simpa using h3
    have h4m : m ∉ entry.metrics := by simpa using h4
    simp [get_signal, h1, h2, h3m, h4m]

/-- C1 witness: the four multiply-invalid scenarios against the demo registry;
in each, the first failing check in the order device, workload, run, metric
names the error. -/
theorem claim_C1_validation_order_witness :
    get_signal reg_demo fs_demo "DX" "WX" "RX" "nope" 1 =
      .error (.http 404 ("Device not found: " ++ "DX")) ∧
    get_signal reg_demo fs_demo "D1" "WX" "RX" "nope" 1 =
      .error (.http 404 ("Workload not found: " ++ "WX")) ∧
    get_signal reg_demo fs_demo "D1" "W1" "RX" "nope" 1 =
      .error (.http 404 ("Run not found: " ++ "RX")) ∧
    get_signal reg_demo fs_demo "D1" "W1" "R1" "nope" 1 =
      .error (.http 400 ("Metric not valid for device: " ++ "nope")) :=
  ⟨(claim_C1_validation_order reg_demo fs_demo "DX" "WX" "RX" "nope" 1).1 rfl,
   (claim_C1_validation_order reg_demo fs_demo "D1" "WX" "RX" "nope" 1).2.1 _ rfl rfl,
   (claim_C1_validation_order reg_demo fs_demo "D1" "W1" "RX" "nope" 1).2.2.1 _ _ rfl rfl rfl,
   (claim_C1_validation_order reg_demo fs_demo "D1" "W1" "R1" "nope" 1).2.2.2 _ _ rfl rfl rfl rfl⟩

/-- C7: a ratio request whose numerator metric equals its denominator metric
never touches the cache (no ratio is computed or stored), and — whenever the
selections are present, so that the identical-metric check is the one that
fires — the result is exactly the usage-error rejection. -/
theorem claim_C7_identical_metrics_rejected
    (fetch_sig : String → String → String → String → Except Err Signal)
    (cache : RatioCache) (eid : Int) (dev wl run m : String) :
    (build_ratio_data fetch_sig cache eid dev wl run m m).2 = cache ∧
    (dev ≠ "" → wl ≠ "" → run ≠ "" →
      build_ratio_data fetch_sig cache eid dev wl run m m =
        (.error "Numerator and denominator must be different metrics", cache)) := by
  constructor
  · unfold build_ratio_data
    split
    · rfl
    · simp
  · intro hd hw hr
    have hcond : ¬(dev = "" ∨ wl = "" ∨ run = "") := by simp [hd, hw, hr]
    simp [build_ratio_data, hcond]

/-- C7 witness: cycles/cycles over the demo data is rejected and the (empty)
cache stays empty. -/
theorem claim_C7_identical_metrics_rejected_witness :
    build_ratio_data (fun dv wv rv mv => get_signal reg_demo fs_demo dv wv rv mv 1)
        [] 0 "D1" "W1" "R1" "cycles" "cycles" =
      (.error "Numerator and denominator must be different metrics", []) ∧
    ("D1" : String) ≠ "" :=
  ⟨(claim_C7_identical_metrics_rejected
      (fun dv wv rv mv => get_signal reg_demo fs_demo dv wv rv mv 1)
      [] 0 "D1" "W1" "R1" "cycles").2 (by decide) (by decide) (by decide),
   by decide⟩

/-- C2: every Signal resolved from a well-formed table satisfies
len(time.values) == len(values) == len(labels.values). -/
theorem claim_C2_signal_lengths (reg : Registry) (fs : String → Except Err DataFrame)
    (d w r m : String) (ws : Int) (s : Signal)
    (hfs : ∀ p df, fs p = .ok df → df.WF)
    (h : get_signal reg fs d w r m ws = .ok s) :
    s.time.values.length = s.values.length ∧
    s.values.length = s.labels.values.length := by
  unfold get_signal at h
  split at h
  · exact absurd h (by simp)
  · split at h
    · exact absurd h (by simp)
    · split at h
      · exact absurd h (by simp)
      · split at h
        · exact absurd h (by simp)
        · split at h
          · exact absurd h (by simp)
          · rename_i df hdf
            have hwf := hfs _ _ hdf
            obtain ⟨hlab, hti, hmv, -, -, -⟩ := make_signal_ok h
            have l1 := getCol_length hwf hti
            have l2 := getCol_length hwf hmv
            have l3 := derive_labels_length hlab
            omega

/-- C2 witness: the demo signal has two samples on all three axes. -/
theorem claim_C2_signal_lengths_witness :
    demo_signal.time.values.length = demo_signal.values.length ∧
    demo_signal.values.length = demo_signal.labels.values.length :=
  claim_C2_signal_lengths reg_demo fs_demo "D1" "W1" "R1" "cycles" 1 demo_signal
    (fun p df h => by
      unfold fs_demo at h
      split at h
      · cases h
        exact df_R1_wf
      · exact absurd h (by simp))
    get_signal_demo

/-- C3: the probe columns are exactly the table columns whose name starts with
the metric's batch's probe prefix and contains at least one of that batch's
probe substrings; the label at each row is 1 exactly when some probe column is
strictly positive there, 0 otherwise; and with no matching column the
derivation still succeeds with all-zero labels. -/
theorem claim_C3_probe_columns_and_labels (df : DataFrame) (cfg : DeviceCfg) (m : String)
    (batch_name : String) (batch : Batch)
    (hb : find_metric_batch cfg m = .ok batch_name)
    (hlk : List.lookup batch_name cfg.batches = some batch) :
    (∃ cols, select_probe_columns df cfg m = .ok cols ∧
      ∀ c, c ∈ cols ↔
        (c ∈ df.columns ∧ pyStartsWith c batch.probe_prefix = true ∧
         ∃ p ∈ batch.probes, pyIn p c = true)) ∧
    (∀ cols, select_probe_columns df cfg m = .ok cols →
      ∃ labels, derive_labels df cfg m = .ok labels ∧
        labels.length = df.nrows ∧
        (cols = [] → labels = List.replicate df.nrows 0) ∧
        (∀ i, i < df.nrows →
          (labels.getD i 0 = 1 ↔ ∃ c ∈ cols, (df.cell c i).gtZero = true) ∧
          (labels.getD i 0 = 0 ↔ ¬ ∃ c ∈ cols, (df.cell c i).gtZero = true))) := by
  constructor
  · have hsel : select_probe_columns df cfg m =
        .ok (df.columns.filter (fun c => pyStartsWith c batch.probe_prefix &&
          batch.probes.any (fun p => pyIn p c))) := by
      simp only [select_probe_columns, hb, hlk]
    refine ⟨_, hsel, ?_⟩
    intro c
    rw [List.mem_filter, Bool.and_eq_true, List.any_eq_true]
  · intro cols hcols
    by_cases hemp : cols.isEmpty
    · have hceq : cols = [] := List.isEmpty_iff.mp hemp
      refine ⟨List.replicate df.nrows 0, ?_, by simp, fun _ => rfl, ?_⟩
      · simp only [derive_labels, hcols]
        rw [if_pos hemp]
      · intro i hi
        subst hceq
        rw [List.getD_eq_getElem?_getD, List.getElem?_replicate, if_pos hi]
        simp
    · refine ⟨(List.range df.nrows).map (fun i =>
          if cols.any (fun c => (df.cell c i).gtZero) then (1 : Int) else 0), ?_, by simp,
        fun hceq => absurd (by rw [hceq]; rfl) hemp, ?_⟩
      · simp only [derive_labels, hcols]
        rw [if_neg hemp]
      · intro i hi
        have hget : ((List.range df.nrows).map (fun i =>
            if cols.any (fun c => (df.cell c i).gtZero) then (1 : Int) else 0)).getD i 0 =
            (if cols.any (fun c => (df.cell c i).gtZero) then (1 : Int) else 0) := by
          rw [List.getD_eq_getElem?_getD, List.getElem?_map, List.getElem?_range hi]
          rfl
        rw [hget]
        constructor
        · constructor
          · intro h1
            rw [← List.any_eq_true]
            by_contra hno
            rw [if_neg hno] at h1
            exact absurd h1 (by decide)
          · intro hex
            rw [if_pos (List.any_eq_true.mpr hex)]
        · constructor
          · intro h0
            rw [← List.any_eq_true]
            by_contra hyes
            rw [if_pos hyes] at h0
            exact absurd h0 (by decide)
          · intro hno
            rw [if_neg (by rw [← List.any_eq_true] at hno; simpa using hno)]

/-- C3 witness: for metric cycles on the demo table the probe-column
characterization holds, the matching column is pmc_core0, and the labels are
[1, 0]; for a probe set matching nothing the labels fall back to all zeros. -/
theorem claim_C3_probe_columns_and_labels_witness :
    (∃ cols, select_probe_columns df_R1 cfg_D1 "cycles" = .ok cols ∧
      ∀ c, c ∈ cols ↔
        (c ∈ df_R1.columns ∧ pyStartsWith c batch_b1.probe_prefix = true ∧
         ∃ p ∈ batch_b1.probes, pyIn p c = true)) ∧
    select_probe_columns df_R1 cfg_D1 "cycles" = .ok ["pmc_core0"] ∧
    derive_labels df_R1 cfg_D1 "cycles" = .ok [1, 0] :=
  ⟨(claim_C3_probe_columns_and_labels df_R1 cfg_D1 "cycles" "b1" batch_b1 rfl rfl).1,
   rfl, rfl⟩

/-- Replacing a value by NaN unless it is finite never yields an infinity. -/
theorem FVal.isInf_if_finite (u : FVal) :
    FVal.isInf (if u.isFinite then u else .nan) = false := by
  cases u <;> rfl

/-- Division by (numpy float) zero never produces a finite value: 0/0 is NaN
and x/0 is an infinity. -/
theorem FVal.div_num_zero_not_finite (a : FVal) : (FVal.div a (.num 0)).isFinite = false := by
  cases a with
  | num q =>
    by_cases hq : q = 0
    · simp [FVal.div, hq, FVal.isFinite]
    · by_cases hq2 : 0 < q <;> simp [FVal.div, hq, hq2, FVal.isFinite]
  | inf => rfl
  | ninf => rfl
  | nan => rfl

/-- C4: for two signals resolved from the same table, the ratio step divides
element-wise without raising, replaces every non-finite quotient (x/0, 0/0)
with the NaN sentinel, and the resulting series contains no infinity; in
particular every position with a zero denominator becomes NaN. -/
theorem claim_C4_ratio_nonfinite_replaced (df : DataFrame) (cfg : DeviceCfg)
    (dev wl run m1 m2 : String) (ws1 ws2 : Int) (s1 s2 : Signal)
    (hwf : df.WF)
    (h1 : make_signal df cfg dev wl run m1 ws1 = .ok s1)
    (h2 : make_signal df cfg dev wl run m2 ws2 = .ok s2) :
    ∃ raw, np_divide s1.values s2.values = .ok raw ∧
      np_where_finite raw =
        List.zipWith (fun a b =>
          if (FVal.div a b).isFinite then FVal.div a b else .nan) s1.values s2.values ∧
      (∀ v ∈ np_where_finite raw, v.isInf = false) ∧
      (∀ i, i < (np_where_finite raw).length → s2.values.getD i .nan = .num 0 →
        (np_where_finite raw).getD i .nan = .nan) := by
  have hl1 : s1.values.length = df.nrows :=
    getCol_length hwf (make_signal_ok h1).2.2.1
  have hl2 : s2.values.length = df.nrows :=
    getCol_length hwf (make_signal_ok h2).2.2.1
  have hlen : s1.values.length = s2.values.length := by omega
  have hdiv : np_divide s1.values s2.values = .ok (List.zipWith FVal.div s1.values s2.values) := by
    unfold np_divide
    rw [if_pos hlen]
  refine ⟨_, hdiv, ?_, ?_, ?_⟩
  · unfold np_where_finite
    rw [List.map_zipWith]
  · intro v hv
    unfold np_where_finite at hv
    rw [List.mem_map] at hv
    obtain ⟨u, -, hu⟩ := hv
    rw [← hu]
    exact FVal.isInf_if_finite u
  · intro i hi hden
    unfold np_where_finite at hi ⊢
    rw [List.map_zipWith] at hi ⊢
    have hi2 : i < s2.values.length := by
      rw [List.length_zipWith] at hi
      omega
    rw [List.getD_eq_getElem _ _ hi, List.getElem_zipWith]
    rw [List.getD_eq_getElem _ _ hi2] at hden
    rw [hden]
    exact if_neg (by simp [FVal.div_num_zero_not_finite])

/-- A second run table (run R2) whose instructions column contains a zero, so
the cycles/instructions ratio exercises division by zero. -/
def df_R2 : DataFrame :=
  { nrows := 2,
    cols := [("index", [.num 0, .num 1]),
             ("pmc_core0", [.num 5, .num 0]),
             ("cycles", [.num 100, .num 200]),
             ("instructions", [.num 50, .num 0])] }

/-- The R2 table is rectangular. -/
theorem df_R2_wf : df_R2.WF := by
  unfold DataFrame.WF df_R2
  decide

/-- The cycles signal resolved from the R2 table. -/
def sig_R2_cycles : Signal :=
  { signal_id := "D1::W1::R2::cycles",
    source := { device := "D1", workload := "W1", run := "R2" },
    metric := { name := "cycles", unit := "events" },
    time := { type := "index", values := [.num 0, .num 1] },
    values := [.num 100, .num 200],
    labels := { type := "attack", values := [1, 0], batch := "b1" },
    transform := { window_size := 1, aggregation := "none" } }

/-- The instructions signal resolved from the R2 table. -/
def sig_R2_instr : Signal :=
  { signal_id := "D1::W1::R2::instructions",
    source := { device := "D1", workload := "W1", run := "R2" },
    metric := { name := "instructions", unit := "events" },
    time := { type := "index", values := [.num 0, .num 1] },
    values := [.num 50, .num 0],
    labels := { type := "attack", values := [1, 0], batch := "b1" },
    transform := { window_size := 1, aggregation := "none" } }

/-- C4 witness: cycles/instructions over R2, whose second denominator is zero;
the concrete conjunct shows 200/0 being replaced by NaN. -/
theorem claim_C4_ratio_nonfinite_replaced_witness :
    (∃ raw, np_divide sig_R2_cycles.values sig_R2_instr.values = .ok raw ∧
      np_where_finite raw =
        List.zipWith (fun a b =>
          if (FVal.div a b).isFinite then FVal.div a b else .nan)
          sig_R2_cycles.values sig_R2_instr.values ∧
      (∀ v ∈ np_where_finite raw, v.isInf = false) ∧
      (∀ i, i < (np_where_finite raw).length →
        sig_R2_instr.values.getD i .nan = .num 0 →
        (np_where_finite raw).getD i .nan = .nan)) ∧
    np_where_finite (List.zipWith FVal.div sig_R2_cycles.values sig_R2_instr.values) =
      [.num 2, .nan] :=
  ⟨claim_C4_ratio_nonfinite_replaced df_R2 cfg_D1 "D1" "W1" "R2" "cycles" "instructions"
      1 1 sig_R2_cycles sig_R2_instr df_R2_wf rfl rfl,
   by norm_num [sig_R2_cycles, sig_R2_instr, np_where_finite, FVal.div, FVal.isFinite]⟩

/-- C5: a freshly derived ratio entry takes its time axis verbatim from the
numerator signal, and its fused label at each position is 1 exactly when the
numerator's or the denominator's label there is 1 (the signals being resolved
from the same table, so the label series align). -/
theorem claim_C5_fused_labels_and_time
    (fetch_sig : String → String → String → String → Except Err Signal)
    (cache : RatioCache) (eid : Int) (dev wl run nm dm : String)
    (df : DataFrame) (cfg : DeviceCfg) (ws1 ws2 : Int) (ns ds : Signal)
    (hdev : dev ≠ "") (hwl : wl ≠ "") (hrun : run ≠ "") (hnd : nm ≠ dm)
    (hmiss : List.lookup (dev, wl, run, nm, dm) cache = none)
    (hfn : fetch_sig dev wl run nm = .ok ns)
    (hfd : fetch_sig dev wl run dm = .ok ds)
    (hwf : df.WF)
    (h1 : make_signal df cfg dev wl run nm ws1 = .ok ns)
    (h2 : make_signal df cfg dev wl run dm ws2 = .ok ds) :
    ∃ entry cache2,
      build_ratio_data fetch_sig cache eid dev wl run nm dm = (.ok entry, cache2) ∧
      entry.x = ns.time.values ∧
      entry.labels.length = ns.labels.values.length ∧
      (∀ i, i < entry.labels.length →
        (entry.labels.getD i 0 = 1 ↔
          (ns.labels.values.getD i 0 = 1 ∨ ds.labels.values.getD i 0 = 1))) := by
  have hvn : ns.values.length = df.nrows := getCol_length hwf (make_signal_ok h1).2.2.1
  have hvd : ds.values.length = df.nrows := getCol_length hwf (make_signal_ok h2).2.2.1
  have hln : ns.labels.values.length = df.nrows := by
    rw [derive_labels_length (make_signal_ok h1).1]
  have hld : ds.labels.values.length = df.nrows := by
    rw [derive_labels_length (make_signal_ok h2).1]
  have hmemn := derive_labels_mem (make_signal_ok h1).1
  have hmemd := derive_labels_mem (make_signal_ok h2).1
  have hdiv : np_divide ns.values ds.values =
      .ok (List.zipWith FVal.div ns.values ds.values) := by
    unfold np_divide
    rw [if_pos (by omega)]
  have hor : np_logical_or_int ns.labels.values ds.labels.values =
      .ok (List.zipWith (fun x y => if x ≠ 0 ∨ y ≠ 0 then (1 : Int) else 0)
        ns.labels.values ds.labels.values) := by
    unfold np_logical_or_int
    rw [if_pos (by omega)]
  have hcond : ¬(dev = "" ∨ wl = "" ∨ run = "") := by simp [hdev, hwl, hrun]
  refine ⟨{ entry_id := eid,
            name := nm ++ " / " ++ dm,
            display_name := ratio_display_name dev wl run nm dm,
            x := ns.time.values,
            y := np_where_finite (List.zipWith FVal.div ns.values ds.values),
            labels := List.zipWith (fun x y => if x ≠ 0 ∨ y ≠ 0 then (1 : Int) else 0)
              ns.labels.values ds.labels.values,
            device := dev, workload := wl, run := run,
            numerator := nm, denominator := dm },
          cache ++ [((dev, wl, run, nm, dm),
            { name := nm ++ " / " ++ dm,
              display_name := ratio_display_name dev wl run nm dm,
              x := ns.time.values,
              y := np_where_finite (List.zipWith FVal.div ns.values ds.values),
              labels := List.zipWith (fun x y => if x ≠ 0 ∨ y ≠ 0 then (1 : Int) else 0)
                ns.labels.values ds.labels.values,
              device := dev, workload := wl, run := run,
              numerator := nm, denominator := dm })],
          ?_, rfl, ?_, ?_⟩
  · simp only [build_ratio_data, if_neg hcond, if_neg hnd, hmiss, hfn, hfd, hdiv, hor]
  · simp only [List.length_zipWith]
    omega
  · intro i hi
    simp only [List.length_zipWith] at hi
    have hin : i < ns.labels.values.length := by omega
    have hid : i < ds.labels.values.length := by omega
    have hiz : i < (List.zipWith (fun x y => if x ≠ 0 ∨ y ≠ 0 then (1 : Int) else 0)
        ns.labels.values ds.labels.values).length := by
      simp only [List.length_zipWith]
      omega
    rw [List.getD_eq_getElem _ _ hiz, List.getElem_zipWith,
      List.getD_eq_getElem _ _ hin, List.getD_eq_getElem _ _ hid]
    have han : ns.labels.values[i] = 0 ∨ ns.labels.values[i] = 1 :=
      hmemn _ (List.getElem_mem hin)
    have had : ds.labels.values[i] = 0 ∨ ds.labels.values[i] = 1 :=
      hmemd _ (List.getElem_mem hid)
    rcases han with han | han <;> rcases had with had | had <;>
      simp [han, had]

/-- C5 witness: the cycles/instructions ratio over R2 with an empty cache. -/
theorem claim_C5_fused_labels_and_time_witness :
    ∃ entry cache2,
      build_ratio_data (fun dv wv rv mv => make_signal df_R2 cfg_D1 dv wv rv mv 1)
        [] 0 "D1" "W1" "R2" "cycles" "instructions" = (.ok entry, cache2) ∧
      entry.x = sig_R2_cycles.time.values ∧
      entry.labels.length = sig_R2_cycles.labels.values.length ∧
      (∀ i, i < entry.labels.length →
        (entry.labels.getD i 0 = 1 ↔
          (sig_R2_cycles.labels.values.getD i 0 = 1 ∨
           sig_R2_instr.labels.values.getD i 0 = 1))) :=
  claim_C5_fused_labels_and_time
    (fun dv wv rv mv => make_signal df_R2 cfg_D1 dv wv rv mv 1)
    [] 0 "D1" "W1" "R2" "cycles" "instructions"
    df_R2 cfg_D1 1 1 sig_R2_cycles sig_R2_instr
    (by decide) (by decide) (by decide) (by decide) rfl rfl rfl df_R2_wf rfl rfl

/-- The single-request resolution step performed for each element of a
`POST /signals` payload (the inlined body of the loop in
src/backend/app.py:256-287, identical to `get_signal`). -/
def resolve_request (reg : Registry) (fs : String → Except Err DataFrame)
    (req : SignalRequest) : Except Err Signal :=
  get_signal reg fs req.device req.workload req.run req.metric req.window_size

/-- C10: the batch resolve is fail-fast and all-or-nothing.  If every request
resolves, the response has exactly one Signal per request, in request order; if
some request fails, the whole batch fails with the error of the first failing
request and no signals are returned. -/
theorem claim_C10_batch_all_or_nothing (reg : Registry) (fs : String → Except Err DataFrame) :
    (∀ reqs : List SignalRequest,
      (∀ req ∈ reqs, ∃ s, resolve_request reg fs req = .ok s) →
      ∃ sigs, get_signals reg fs reqs = .ok sigs ∧
        sigs.length = reqs.length ∧
        ∀ (i : Nat) (hr : i < reqs.length) (hs : i < sigs.length),
          resolve_request reg fs reqs[i] = .ok sigs[i]) ∧
    (∀ (pre rest : List SignalRequest) (req : SignalRequest) (e : Err),
      (∀ q ∈ pre, ∃ s, resolve_request reg fs q = .ok s) →
      resolve_request reg fs req = .error e →
      get_signals reg fs (pre ++ req :: rest) = .error e) := by
  constructor
  · intro reqs
    induction reqs with
    | nil =>
      intro _
      exact ⟨[], rfl, rfl, fun i hr => absurd hr (by simp)⟩
    | cons q qs ih =>
      intro hall
      obtain ⟨s, hs⟩ := hall q (by simp)
      obtain ⟨sigs, hsigs, hlen, hidx⟩ := ih (fun q hq => hall q (by simp [hq]))
      refine ⟨s :: sigs, ?_, by simp [hlen], ?_⟩
      · unfold resolve_request at hs
        simp only [get_signals]
        rw [hs, hsigs]
      · intro i hr hss
        cases i with
        | zero => simpa using hs
        | succ j =>
          simp only [List.getElem_cons_succ]
          exact hidx j (by simpa using hr) (by simpa using hss)
  · intro pre
    induction pre with
    | nil =>
      intro rest req e _ herr
      unfold resolve_request at herr
      rw [List.nil_append]
      simp only [get_signals]
      rw [herr]
    | cons q qs ih =>
      intro rest req e hall herr
      obtain ⟨s, hs⟩ := hall q (by simp)
      have htail := ih rest req e (fun p hp => hall p (by simp [hp])) herr
      unfold resolve_request at hs
      rw [List.cons_append]
      simp only [get_signals]
      rw [hs, htail]

/-- A valid demo batch request. -/
def req_ok : SignalRequest :=
  { device := "D1", workload := "W1", run := "R1", metric := "cycles", window_size := 1 }

/-- A demo batch request naming an unknown device. -/
def req_bad : SignalRequest :=
  { device := "DX", workload := "W1", run := "R1", metric := "cycles", window_size := 1 }

/-- C10 witness: a batch with one valid request resolves to one signal in
order; appending an unknown-device request after a valid one fails the whole
batch with that request's 404. -/
theorem claim_C10_batch_all_or_nothing_witness :
    (∃ sigs, get_signals reg_demo fs_demo [req_ok] = .ok sigs ∧
      sigs.length = [req_ok].length ∧
      ∀ (i : Nat) (hr : i < [req_ok].length) (hs : i < sigs.length),
        resolve_request reg_demo fs_demo [req_ok][i] = .ok sigs[i]) ∧
    get_signals reg_demo fs_demo ([req_ok] ++ req_bad :: []) =
      .error (.http 404 ("Device not found: " ++ "DX")) :=
  ⟨(claim_C10_batch_all_or_nothing reg_demo fs_demo).1 [req_ok]
      (fun req hreq => by
        rw [List.mem_singleton] at hreq
        exact ⟨demo_signal, by rw [hreq]; exact get_signal_demo⟩),
   (claim_C10_batch_all_or_nothing reg_demo fs_demo).2 [req_ok] [] req_bad
      (.http 404 ("Device not found: " ++ "DX"))
      (fun q hq => by
        rw [List.mem_singleton] at hq
        exact ⟨demo_signal, by rw [hq]; exact get_signal_demo⟩)
      rfl⟩

/-- Python `sorted` depends only on the multiset of its input: permuted inputs
sort to the same list. -/
theorem sorted_strings_perm_eq {l1 l2 : List String} (h : l1.Perm l2) :
    sorted_strings l1 = sorted_strings l2 := by
  apply List.eq_of_perm_of_sorted (r := (· ≤ ·))
  · exact ((List.mergeSort_perm l1 _).trans h).trans (List.mergeSort_perm l2 _).symm
  · exact List.sorted_mergeSort' _
  · exact List.sorted_mergeSort' _

/-- The run list of a workload directory is insensitive to the enumeration
order of its files. -/
theorem workload_runs_perm {w1 w2 : WorkloadDir} (h : w1.files.Perm w2.files) :
    workload_runs w1 = workload_runs w2 :=
  sorted_strings_perm_eq (h.filterMap _)

/-- A successful association-list lookup returns an actual entry. -/
theorem lookup_mem {β : Type} {l : List (String × β)} {k : String} {v : β}
    (h : List.lookup k l = some v) : (k, v) ∈ l := by
  induction l with
  | nil => cases h
  | cons kv rest ih =>
    cases kv with
    | mk k1 v1 =>
      rw [List.lookup] at h
      split at h
      · rename_i hbeq
        injection h with h
        have hk : k = k1 := by simpa using hbeq
        subst hk
        subst h
        exact List.mem_cons_self _ _
      · exact List.mem_cons_of_mem _ (ih h)

/-- With distinct keys, lookup finds exactly the entry that is present. -/
theorem lookup_eq_some_of_mem_nodup {β : Type} {l : List (String × β)} {k : String} {v : β}
    (hnd : (l.map Prod.fst).Nodup) (hm : (k, v) ∈ l) : List.lookup k l = some v := by
  induction l with
  | nil => cases hm
  | cons kv rest ih =>
    cases kv with
    | mk k1 v1 =>
      rw [List.map_cons, List.nodup_cons] at hnd
      rcases List.mem_cons.mp hm with heq | hmr
      · injection heq with h1 h2
        subst h1
        subst h2
        rw [List.lookup]
        simp
      · have hk : ¬(k == k1) = true := by
          simp only [beq_iff_eq]
          intro hkk
          exact hnd.1 (hkk ▸ List.mem_map.mpr ⟨(k, v), hmr, rfl⟩)
        rw [List.lookup]
        split
        · rename_i hbeq
          exact absurd hbeq hk
        · exact ih hnd.2 hmr

/-- Lookup fails exactly on keys that are absent. -/
theorem lookup_eq_none_iff {β : Type} {l : List (String × β)} {k : String} :
    List.lookup k l = none ↔ k ∉ l.map Prod.fst := by
  induction l with
  | nil => simp
  | cons kv rest ih =>
    cases kv with
    | mk k1 v1 =>
      rw [List.lookup, List.map_cons]
      by_cases hk : k = k1
      · subst hk
        simp
      · have hbeq : (k == k1) = false := by simpa using hk
        rw [hbeq]
        simp [ih, hk]

/-- Two workload directories with the same name whose file listings are
permutations of each other (the same directory enumerated in another order). -/
def WorkloadDir.equiv (w1 w2 : WorkloadDir) : Prop :=
  w1.name = w2.name ∧ w1.files.Perm w2.files

/-- Two device directories that agree on name and config and whose workload
listings coincide up to enumeration order. -/
def DeviceDir.equiv (d1 d2 : DeviceDir) : Prop :=
  d1.name = d2.name ∧ d1.config = d2.config ∧
  (∀ w1 ∈ d1.workloads, ∃ w2 ∈ d2.workloads, WorkloadDir.equiv w1 w2) ∧
  (∀ w2 ∈ d2.workloads, ∃ w1 ∈ d1.workloads, WorkloadDir.equiv w1 w2)

/-- Two data roots describing the same directory tree, each directory's
children enumerated in arbitrary order — what two consecutive `iterdir`/`glob`
walks of an unchanged tree may produce. -/
def root_equiv (r1 r2 : List DeviceDir) : Prop :=
  (∀ d1 ∈ r1, ∃ d2 ∈ r2, DeviceDir.equiv d1 d2) ∧
  (∀ d2 ∈ r2, ∃ d1 ∈ r1, DeviceDir.equiv d1 d2)

/-- The per-device workload map builder (the filterMap inside `device_entry`). -/
def workloads_map (ws : List WorkloadDir) : List (String × List String) :=
  ws.filterMap (fun w =>
    if w.name == "__pycache__" then none else some (w.name, workload_runs w))

/-- `device_entry` builds its workload field with `workloads_map`. -/
theorem device_entry_workloads (d : DeviceDir) (cfg : DeviceCfg) :
    (device_entry d cfg).workloads = workloads_map d.workloads := rfl

/-- Membership in the built workload map. -/
theorem mem_workloads_map {ws : List WorkloadDir} {wl : String} {runs : List String} :
    (wl, runs) ∈ workloads_map ws ↔
      ∃ w ∈ ws, w.name = wl ∧ w.name ≠ "__pycache__" ∧ runs = workload_runs w := by
  unfold workloads_map
  rw [List.mem_filterMap]
  constructor
  · rintro ⟨w, hw, hf⟩
    by_cases hp : w.name == "__pycache__"
    · rw [if_pos hp] at hf
      cases hf
    · rw [if_neg hp] at hf
      injection hf with h1
      injection h1 with hn hr
      exact ⟨w, hw, hn, by simpa using hp, hr.symm⟩
  · rintro ⟨w, hw, hn, hp, hr⟩
    refine ⟨w, hw, ?_⟩
    rw [if_neg (by simpa using hp), hn, hr]

/-- Keys of the workload map are a sublist of the workload directory names. -/
theorem workloads_map_keys_sublist (ws : List WorkloadDir) :
    ((workloads_map ws).map Prod.fst).Sublist (ws.map WorkloadDir.name) := by
  induction ws with
  | nil => simp [workloads_map]
  | cons w rest ih =>
    unfold workloads_map at ih ⊢
    rw [List.filterMap_cons]
    by_cases hp : w.name == "__pycache__"
    · rw [if_pos hp]
      exact ih.cons _
    · rw [if_neg hp]
      rw [List.map_cons, List.map_cons]
      exact ih.cons₂ _

/-- The workload maps of two equivalent workload listings (same directories,
any enumeration order, distinct names) agree on every lookup. -/
theorem workloads_map_lookup_equiv {ws1 ws2 : List WorkloadDir}
    (hb1 : ∀ w1 ∈ ws1, ∃ w2 ∈ ws2, WorkloadDir.equiv w1 w2)
    (hb2 : ∀ w2 ∈ ws2, ∃ w1 ∈ ws1, WorkloadDir.equiv w1 w2)
    (hn1 : (ws1.map WorkloadDir.name).Nodup) (hn2 : (ws2.map WorkloadDir.name).Nodup)
    (wl : String) :
    List.lookup wl (workloads_map ws1) = List.lookup wl (workloads_map ws2) := by
  have keys2 : ((workloads_map ws2).map Prod.fst).Nodup :=
    (workloads_map_keys_sublist ws2).nodup hn2
  cases h1 : List.lookup wl (workloads_map ws1) with
  | none =>
    rw [lookup_eq_none_iff] at h1
    symm
    rw [lookup_eq_none_iff]
    intro hmem2
    rw [List.mem_map] at hmem2
    obtain ⟨p, hpmem, hfst⟩ := hmem2
    obtain ⟨wl2, runs2⟩ := p
    cases hfst
    obtain ⟨w2, hw2, hwn, hwp, -⟩ := mem_workloads_map.mp hpmem
    obtain ⟨w1, hw1, hequiv⟩ := hb2 w2 hw2
    apply h1
    exact List.mem_map.mpr ⟨(w1.name, workload_runs w1),
      mem_workloads_map.mpr ⟨w1, hw1, rfl, by rw [hequiv.1]; exact hwp, rfl⟩,
      by rw [hequiv.1, hwn]⟩
  | some runs1 =>
    obtain ⟨w1, hw1, hwn, hwp, hruns⟩ := mem_workloads_map.mp (lookup_mem h1)
    obtain ⟨w2, hw2, hequiv⟩ := hb1 w1 hw1
    have hperm : workload_runs w1 = workload_runs w2 := workload_runs_perm hequiv.2
    symm
    apply lookup_eq_some_of_mem_nodup keys2
    apply mem_workloads_map.mpr
    exact ⟨w2, hw2, by rw [← hequiv.1, hwn], by rw [← hequiv.1]; exact hwp,
      by rw [hruns, hperm]⟩

/-- Membership in the built registry: exactly the devices with a config. -/
theorem mem_load_registry {root : List DeviceDir} {dev : String} {e : RegEntry} :
    (dev, e) ∈ load_registry root ↔
      ∃ d ∈ root, d.name = dev ∧ ∃ cfg, d.config = some cfg ∧ e = device_entry d cfg := by
  unfold load_registry
  rw [List.mem_filterMap]
  constructor
  · rintro ⟨d, hd, hf⟩
    cases hc : d.config with
    | none =>
      rw [hc] at hf
      cases hf
    | some cfg =>
      rw [hc] at hf
      injection hf with h1
      injection h1 with hn he
      exact ⟨d, hd, hn, cfg, hc, he.symm⟩
  · rintro ⟨d, hd, hn, cfg, hc, he⟩
    refine ⟨d, hd, ?_⟩
    rw [hc, hn, he]

/-- Keys of the built registry are a sublist of the device directory names. -/
theorem load_registry_keys_sublist (root : List DeviceDir) :
    ((load_registry root).map Prod.fst).Sublist (root.map DeviceDir.name) := by
  induction root with
  | nil => simp [load_registry]
  | cons d rest ih =>
    unfold load_registry at ih ⊢
    rw [List.filterMap_cons]
    cases hc : d.config with
    | none => exact ih.cons _
    | some cfg => exact ih.cons₂ _

/-- Lookups into the registries built from two equivalent roots either both
miss or both hit equivalent devices carrying the same config. -/
theorem load_registry_lookup_equiv (r1 r2 : List DeviceDir) (heq : root_equiv r1 r2)
    (hd1 : (r1.map DeviceDir.name).Nodup) (hd2 : (r2.map DeviceDir.name).Nodup)
    (dev : String) :
    (List.lookup dev (load_registry r1) = none ∧
     List.lookup dev (load_registry r2) = none) ∨
    (∃ d1 d2 cfg, d1 ∈ r1 ∧ d2 ∈ r2 ∧ DeviceDir.equiv d1 d2 ∧
      d1.config = some cfg ∧ d2.config = some cfg ∧
      List.lookup dev (load_registry r1) = some (device_entry d1 cfg) ∧
      List.lookup dev (load_registry r2) = some (device_entry d2 cfg)) := by
  have keys2 : ((load_registry r2).map Prod.fst).Nodup :=
    (load_registry_keys_sublist r2).nodup hd2
  cases h1 : List.lookup dev (load_registry r1) with
  | none =>
    left
    refine ⟨rfl, ?_⟩
    rw [lookup_eq_none_iff] at h1 ⊢
    intro hmem2
    rw [List.mem_map] at hmem2
    obtain ⟨p, hpmem, hfst⟩ := hmem2
    obtain ⟨dev2, e2⟩ := p
    cases hfst
    obtain ⟨d2, hd2m, hdn, cfg, hc2, -⟩ := mem_load_registry.mp hpmem
    obtain ⟨d1, hd1m, hequiv⟩ := heq.2 d2 hd2m
    apply h1
    refine List.mem_map.mpr ⟨(d1.name, device_entry d1 cfg), ?_, by rw [hequiv.1, hdn]⟩
    exact mem_load_registry.mpr ⟨d1, hd1m, rfl, cfg, by rw [hequiv.2.1]; exact hc2, rfl⟩
  | some e1 =>
    right
    obtain ⟨d1, hd1m, hdn, cfg, hc1, he1⟩ := mem_load_registry.mp (lookup_mem h1)
    obtain ⟨d2, hd2m, hequiv⟩ := heq.1 d1 hd1m
    have hc2 : d2.config = some cfg := by rw [← hequiv.2.1]; exact hc1
    refine ⟨d1, d2, cfg, hd1m, hd2m, hequiv, hc1, hc2, by rw [he1], ?_⟩
    apply lookup_eq_some_of_mem_nodup keys2
    apply mem_load_registry.mpr
    exact ⟨d2, hd2m, by rw [← hequiv.1]; exact hdn, cfg, hc2, rfl⟩

/-- C8: the registry build is deterministic and idempotent on an unchanged
tree.  `load_registry` is a pure function of the tree, and its observable
content — the device set, each device's sorted metric list and each device's
workload-to-sorted-run-list mapping — is invariant under the enumeration order
of directory listings (the only thing that may differ between two consecutive
walks of the same tree), provided sibling names are distinct as they are on a
real filesystem. -/
theorem claim_C8_registry_rebuild_idempotent (r1 r2 : List DeviceDir)
    (heq : root_equiv r1 r2)
    (hd1 : (r1.map DeviceDir.name).Nodup) (hd2 : (r2.map DeviceDir.name).Nodup)
    (hw1 : ∀ d ∈ r1, (d.workloads.map WorkloadDir.name).Nodup)
    (hw2 : ∀ d ∈ r2, (d.workloads.map WorkloadDir.name).Nodup) :
    (∀ dev, dev ∈ (load_registry r1).map Prod.fst ↔
      dev ∈ (load_registry r2).map Prod.fst) ∧
    (∀ dev, (List.lookup dev (load_registry r1)).map RegEntry.metrics =
            (List.lookup dev (load_registry r2)).map RegEntry.metrics) ∧
    (∀ dev wl,
      (List.lookup dev (load_registry r1)).map (fun e => List.lookup wl e.workloads) =
      (List.lookup dev (load_registry r2)).map (fun e => List.lookup wl e.workloads)) := by
  refine ⟨?_, ?_, ?_⟩
  · intro dev
    rcases load_registry_lookup_equiv r1 r2 heq hd1 hd2 dev with
      ⟨h1, h2⟩ | ⟨d1, d2, cfg, -, -, -, -, -, h1, h2⟩
    · rw [lookup_eq_none_iff] at h1 h2
      exact ⟨fun hm => absurd hm h1, fun hm => absurd hm h2⟩
    · exact ⟨fun _ => List.mem_map.mpr ⟨(dev, device_entry d2 cfg), lookup_mem h2, rfl⟩,
             fun _ => List.mem_map.mpr ⟨(dev, device_entry d1 cfg), lookup_mem h1, rfl⟩⟩
  · intro dev
    rcases load_registry_lookup_equiv r1 r2 heq hd1 hd2 dev with
      ⟨h1, h2⟩ | ⟨d1, d2, cfg, -, -, -, -, -, h1, h2⟩
    · rw [h1, h2]
    · rw [h1, h2]
      rfl
  · intro dev wl
    rcases load_registry_lookup_equiv r1 r2 heq hd1 hd2 dev with
      ⟨h1, h2⟩ | ⟨d1, d2, cfg, hm1, hm2, hequiv, -, -, h1, h2⟩
    · rw [h1, h2]
    · rw [h1, h2]
      obtain ⟨-, -, hb1, hb2⟩ := hequiv
      simp only [Option.map_some']
      rw [device_entry_workloads, device_entry_workloads,
        workloads_map_lookup_equiv hb1 hb2 (hw1 d1 hm1) (hw2 d2 hm2) wl]

/-- Decidability of the workload-directory equivalence, for concrete witnesses. -/
instance (w1 w2 : WorkloadDir) : Decidable (WorkloadDir.equiv w1 w2) := by
  unfold WorkloadDir.equiv
  infer_instance

/-- Decidability of the device-directory equivalence. -/
instance (d1 d2 : DeviceDir) : Decidable (DeviceDir.equiv d1 d2) := by
  unfold DeviceDir.equiv
  infer_instance

/-- Decidability of root equivalence. -/
instance (r1 r2 : List DeviceDir) : Decidable (root_equiv r1 r2) := by
  unfold root_equiv
  infer_instance

/-- A workload directory listing of the demo tree. -/
def wdir_A : WorkloadDir :=
  { name := "W1", files := ["R1.csv", "R2.csv", "experiments_master_log.csv"] }

/-- The same workload directory enumerated in another order. -/
def wdir_B : WorkloadDir :=
  { name := "W1", files := ["experiments_master_log.csv", "R2.csv", "R1.csv"] }

/-- A demo tree: device D1 (with config) and a config-less directory D0. -/
def root_A : List DeviceDir :=
  [{ name := "D1", config := some cfg_D1, workloads := [wdir_A] },
   { name := "D0", config := none, workloads := [] }]

/-- The same tree enumerated in a different order at every level. -/
def root_B : List DeviceDir :=
  [{ name := "D0", config := none, workloads := [] },
   { name := "D1", config := some cfg_D1, workloads := [wdir_B] }]

/-- C8 witness: the two enumerations of the demo tree build registries with the
same device set, metric lists and workload/run maps. -/
theorem claim_C8_registry_rebuild_idempotent_witness :
    root_equiv root_A root_B ∧
    (∀ dev, dev ∈ (load_registry root_A).map Prod.fst ↔
      dev ∈ (load_registry root_B).map Prod.fst) ∧
    (∀ dev, (List.lookup dev (load_registry root_A)).map RegEntry.metrics =
            (List.lookup dev (load_registry root_B)).map RegEntry.metrics) ∧
    (∀ dev wl,
      (List.lookup dev (load_registry root_A)).map (fun e => List.lookup wl e.workloads) =
      (List.lookup dev (load_registry root_B)).map (fun e => List.lookup wl e.workloads)) := by
  have h := claim_C8_registry_rebuild_idempotent root_A root_B
    (by decide) (by decide) (by decide) (by decide) (by decide)
  exact ⟨by decide, h.1, h.2.1, h.2.2⟩
